import Mathlib

/-!
# Verification of the settings state manager of `src/optimizer.py`

Shallow embedding of the `NetworkOptimizer` state-management core:
snapshot capture (`load_interface_settings`, `load_global_defaults`),
the apply engine (`apply_settings`) and the reset engine
(`reset_to_defaults`).  External capability calls (subprocess
invocations of ethtool / iw / sysctl and the NetworkManager config-file
write) are modelled as abstract actions paired with an oracle of
success/failure outcomes; each modelled operation returns the ordered
list of capability calls it issued together with the aggregated error
messages, mirroring the Python code's `error_messages` list.
-/

/-- A capability write issued by apply/reset.  Mirrors the concrete
subprocess calls of `apply_settings` / `reset_to_defaults`:
`ethtool -K <iface> <flag> <val>`, `iw dev <iface> set power_save <val>`,
the NetworkManager config-file write, and `sysctl -w <key>=<val>`. -/
inductive SysAction where
  | ethtoolSet (iface flag val : String)
  | iwSetPowerSave (iface val : String)
  | writeNMConfig (path content : String)
  | sysctlWrite (key val : String)
deriving DecidableEq, Repr

/-- A capability read issued during snapshot capture / interface load:
`ethtool -k <iface>`, `iw dev <iface> get power_save`, `sysctl -n <key>`. -/
inductive ReadCall where
  | ethtoolK (iface : String)
  | iwGet (iface : String)
  | sysctlRead (key : String)
deriving DecidableEq, Repr

/-- Non-fatal warning dialogs (`QMessageBox.warning`) surfaced by the
detection paths. -/
inductive Warning where
  | offloadWarn (iface : String)
  | bufferWarn
  | tcpWarn
  | globalWarn
deriving DecidableEq, Repr

/-- One entry of the Python `error_messages` list; each constructor stands
for one distinct format string of the source. -/
inductive ErrMsg where
  | failedSetOffload (flag iface : String)
  | failedSetPowerSave (iface : String)
  | failedPowerSaveFallback (iface : String)
  | failedSetBuffers
  | failedSetCongestion
  | failedResetOffload (flag iface : String)
  | failedResetPowerSave (iface : String)
  | failedResetBuffers
  | failedResetCongestion
deriving DecidableEq, Repr

/-- `self.interface_defaults[interface]`: the per-interface snapshot dict.
Each offload key may be absent (`none`) when never detected; the
`power_save` key itself may be absent (outer `none`), and when present its
stored value is either a boolean or Python `None` = not applicable
(inner `none`). -/
structure IfaceDefaults where
  tso : Option Bool
  gso : Option Bool
  gro : Option Bool
  power_save : Option (Option Bool)
deriving DecidableEq, Repr

/-- The fresh empty dict `{}` assigned before detection, and the default of
`self.interface_defaults.get(interface, {})`. -/
def emptyDefaults : IfaceDefaults :=
  { tso := none, gso := none, gro := none, power_save := none }

/-- `self.global_defaults`: the three sysctl strings captured at startup;
a `none` field models the key being absent from the dict. -/
structure GlobalDefaults where
  rmem : Option String
  wmem : Option String
  tcp_cc : Option String
deriving DecidableEq, Repr

/-- The widget state `apply_settings` reads: the three disable checkboxes,
the power-save checkbox (enabled flag and checked flag), the buffer slider
value and the congestion-control combo-box text. -/
structure GuiState where
  tsoChecked : Bool
  gsoChecked : Bool
  groChecked : Bool
  psEnabled : Bool
  psChecked : Bool
  slider : Int
  tcp : String
deriving DecidableEq, Repr

/-- The whole mutable state of the `NetworkOptimizer` window that the
state-management core touches. -/
structure AppState where
  interface_defaults : List (String × IfaceDefaults)
  global_defaults : GlobalDefaults
  current_interface : Option String
  gui : GuiState
deriving DecidableEq, Repr

/-- Success/failure oracle for the capability writes one apply/reset run
issues (reset ignores `nm`, the NetworkManager config-file write). -/
structure WriteOutcomes where
  tso : Bool
  gso : Bool
  gro : Bool
  iw : Bool
  nm : Bool
  rmem : Bool
  wmem : Bool
  cc : Bool
deriving DecidableEq, Repr

/-- Outcomes of the reads `load_interface_settings` issues: the raw
`ethtool -k` output (given post-`splitlines`), the stripped
`iw ... get power_save` output, and the two sysctl reads. -/
structure ReadOutcomes where
  ethtool : Except Unit (List String)
  iw : Except Unit String
  rmem : Except Unit String
  tcp : Except Unit String
deriving Repr

/-- Outcomes of the three reads of `load_global_defaults`. -/
structure GlobalReadOutcomes where
  rmem : Except Unit String
  wmem : Except Unit String
  tcp : Except Unit String
deriving Repr

/-- Return value of apply/reset: the ordered capability writes issued and
the aggregated `error_messages`. -/
structure ApplyResult where
  actions : List SysAction
  errors : List ErrMsg
deriving DecidableEq, Repr

/-- Is the first list a prefix of the second (on characters)? -/
def isPrefixList : List Char → List Char → Bool
  | [], _ => true
  | _ :: _, [] => false
  | a :: as, b :: bs => a == b && isPrefixList as bs

/-- Does the pattern occur as a contiguous sublist? -/
def listContains (pat : List Char) : List Char → Bool
  | [] => pat.isEmpty
  | c :: rest => isPrefixList pat (c :: rest) || listContains pat rest

/-- Python `sub in s` substring test. -/
def strContains (s sub : String) : Bool := listContains sub.data s.data

/-- Python `str.strip()`: drop leading and trailing whitespace. -/
def pyStrip (s : String) : String :=
  ⟨((s.data.dropWhile Char.isWhitespace).reverse.dropWhile Char.isWhitespace).reverse⟩

/-- Python `str.lower()` (ASCII letters, all that occurs here). -/
def pyLower (s : String) : String :=
  ⟨s.data.map fun c => if 'A' ≤ c ∧ c ≤ 'Z' then Char.ofNat (c.toNat + 32) else c⟩

/-- The characters after the last occurrence of `sep` (the whole string
when `sep` does not occur): Python `s.split(sep)[-1]` for a one-character
separator. -/
def afterLast (sep : Char) (l : List Char) : List Char :=
  l.foldl (fun cur c => if c == sep then [] else cur ++ [c]) []

/-- `line.split(":")[-1].strip()`. -/
def lineValue (line : String) : String := pyStrip ⟨afterLast ':' line.data⟩

/-- Digit-string value, `none` unless nonempty and all digits. -/
def parseDigits (l : List Char) : Option ℕ :=
  if l ≠ [] ∧ l.all Char.isDigit then
    some (l.foldl (fun n c => 10 * n + (c.toNat - 48)) 0)
  else none

/-- Python `int(s)` on a stripped decimal string: optional sign then
digits, failure (`ValueError`) as `none`.  (Python also accepts
underscore separators; none occur in sysctl output.) -/
def pyInt? (s : String) : Option ℤ :=
  match pyStrip s |>.data with
  | '-' :: rest => (parseDigits rest).map fun n => -(n : ℤ)
  | '+' :: rest => (parseDigits rest).map fun n => (n : ℤ)
  | l => (parseDigits l).map fun n => (n : ℤ)

/-- Python `round(num / den)` for an exact quotient with `den > 0`:
round half to even (banker's rounding), exactly what Python `round`
does on the float quotient when the division is exact.  `f` is the
floor of the quotient; comparing `2 * (num - f * den)` with `den`
compares the fractional part with 1/2. -/
def pyRoundDiv (num den : ℤ) : ℤ :=
  let f := Int.fdiv num den
  let r2 := 2 * (num - f * den)
  if r2 < den then f
  else if den < r2 then f + 1
  else if f % 2 = 0 then f else f + 1

/-- `QSlider.setValue` with `setMinimum(1)` / `setMaximum(8)` (source lines
239-240): Qt clamps the requested value into the slider's range.  The same
clamp appears textually as `max(1, min(8, ...))` at line 356. -/
def sliderSet (v : ℤ) : ℤ := max 1 (min 8 v)

/-- Line 476: `int(self.bufferSlider.value() * 0.5 * 1048576)`.  The float
product `v * 0.5 * 1048576` is exactly the integer `v * 524288` (both
factors are powers of two, so no float rounding occurs), and `int`
truncation is the identity on it. -/
def bufferValue (v : ℤ) : ℤ := v * 524288

/-- `f"...{x}..."` interpolation of a value read with `dict.get(key)`:
Python renders a missing key (`None`) as the string `"None"`. -/
def optStr : Option String → String
  | some s => s
  | none => "None"

/-- The NetworkManager config file path written by the power-save fallback. -/
def nmConfPath : String := "/etc/NetworkManager/conf.d/default-wifi-powersave-on.conf"

/-- The content written by the power-save fallback. -/
def nmConfContent : String := "[connection]\nwifi.powersave = 2\n"

/-- The parsing loop over `ethtool -k` output lines (source lines 302-312):
each stripped line matching one of the offload patterns updates the
corresponding flag with `value.lower() == "on"`. -/
def parseOffload (lines : List String) : IfaceDefaults :=
  lines.foldl (fun d l =>
    let line := pyStrip l
    if strContains line "tcp-segmentation-offload:" || strContains line "tso:" then
      { d with tso := some (pyLower (lineValue line) == "on") }
    else if strContains line "generic-segmentation-offload:" || strContains line "gso:" then
      { d with gso := some (pyLower (lineValue line) == "on") }
    else if strContains line "generic-receive-offload:" || strContains line "gro:" then
      { d with gro := some (pyLower (lineValue line) == "on") }
    else d) emptyDefaults

/-- The detection block of `load_interface_settings` (lines 296-332), run
only when `interface` has no cached snapshot: parse `ethtool -k` (on read
failure record `true` for all three flags and warn), then read power-save
via `iw` (on failure record Python `None` = not applicable). -/
def captureIface (iface : String) (o : ReadOutcomes) : IfaceDefaults × List Warning :=
  let (flags, w) :=
    match o.ethtool with
    | .ok lines => (parseOffload lines, ([] : List Warning))
    | .error _ =>
      ({ tso := some true, gso := some true, gro := some true, power_save := none },
       [Warning.offloadWarn iface])
  let d :=
    match o.iw with
    | .ok out => { flags with power_save := some (some (!(strContains (pyLower (pyStrip out)) "off"))) }
    | .error _ => { flags with power_save := some none }
  (d, w)

/-- What `load_interface_settings` produces: the new window state, the
snapshot dict it used for the UI update, the capability reads it issued
(in order) and the warnings it surfaced. -/
structure LoadResult where
  state : AppState
  snapshot : IfaceDefaults
  issued : List ReadCall
  warns : List Warning
deriving Repr

/-- `load_interface_settings` (lines 288-369): set `current_interface`;
capture the snapshot only if absent from `interface_defaults`; update the
offload/power-save checkboxes from the snapshot (with fail-safe default
`True` for missing offload keys); then re-read the two global sysctl
values and update the buffer slider and the congestion combo box from
them (leaving each unchanged, with a warning, when its read fails). -/
def load_interface_settings (st : AppState) (iface : String) (o : ReadOutcomes) : LoadResult :=
  let (cache, snap, capCalls, capWarns) :=
    match st.interface_defaults.lookup iface with
    | some d => (st.interface_defaults, d, ([] : List ReadCall), ([] : List Warning))
    | none =>
      let (d, w) := captureIface iface o
      ((iface, d) :: st.interface_defaults, d,
       [ReadCall.ethtoolK iface, ReadCall.iwGet iface], w)
  let tsoC := !(snap.tso.getD true)
  let gsoC := !(snap.gso.getD true)
  let groC := !(snap.gro.getD true)
  let (psEn, psC) :=
    match snap.power_save.join with
    | some b => (true, !b)
    | none => (false, false)
  let (slider1, w2) :=
    match o.rmem with
    | .ok s =>
      -- `buffer_mb = int(rmem) / 1048576`; `round(buffer_mb / 0.5)` is the
      -- half-even rounding of the exact quotient `int(rmem) / 524288`.
      match pyInt? (pyStrip s) with
      | some n => (sliderSet (pyRoundDiv n 524288), ([] : List Warning))
      | none => (st.gui.slider, [Warning.bufferWarn])
    | .error _ => (st.gui.slider, [Warning.bufferWarn])
  let (tcp1, w3) :=
    match o.tcp with
    | .ok s =>
      (if pyStrip s == "cubic" || pyStrip s == "bbr" then pyStrip s else st.gui.tcp,
       ([] : List Warning))
    | .error _ => (st.gui.tcp, [Warning.tcpWarn])
  { state :=
      { interface_defaults := cache,
        global_defaults := st.global_defaults,
        current_interface := some iface,
        gui :=
          { tsoChecked := tsoC, gsoChecked := gsoC, groChecked := groC,
            psEnabled := psEn, psChecked := psC, slider := slider1, tcp := tcp1 } },
    snapshot := snap,
    issued := capCalls ++
      [ReadCall.sysctlRead "net.core.rmem_max",
       ReadCall.sysctlRead "net.ipv4.tcp_congestion_control"],
    warns := capWarns ++ w2 ++ w3 }

/-- `on_interface_change` (lines 385-387): the combo-box handler just calls
`load_interface_settings`. -/
def on_interface_change (st : AppState) (iface : String) (o : ReadOutcomes) : LoadResult :=
  load_interface_settings st iface o

/-- `load_global_defaults` (lines 371-383): capture only while the dict is
empty; the three reads share one `try`, so either all three values are
stored or (on any failure) none are and a warning is surfaced. -/
def load_global_defaults (gd : GlobalDefaults) (o : GlobalReadOutcomes) :
    GlobalDefaults × List Warning :=
  if gd.rmem = none ∧ gd.wmem = none ∧ gd.tcp_cc = none then
    match o.rmem, o.wmem, o.tcp with
    | .ok r, .ok w, .ok t =>
      ({ rmem := some (pyStrip r), wmem := some (pyStrip w), tcp_cc := some (pyStrip t) }, [])
    | _, _, _ => (gd, [Warning.globalWarn])
  else (gd, [])

/-- `apply_settings` (lines 406-500), after the no-interface guard: the
three offload writes each in their own try/except; the power-save write
(only when the checkbox is enabled) with the NetworkManager config-file
fallback when disabling; the two buffer writes sharing one try/except;
the congestion-control write.  Each failed block appends one entry to
`error_messages`; nothing stops later blocks. -/
def apply_settings (iface : String) (g : GuiState) (o : WriteOutcomes) : ApplyResult :=
  let tsoActs : List SysAction := [.ethtoolSet iface "tso" (if g.tsoChecked then "off" else "on")]
  let tsoErrs : List ErrMsg := if o.tso then [] else [.failedSetOffload "TSO" iface]
  let gsoActs : List SysAction := [.ethtoolSet iface "gso" (if g.gsoChecked then "off" else "on")]
  let gsoErrs : List ErrMsg := if o.gso then [] else [.failedSetOffload "GSO" iface]
  let groActs : List SysAction := [.ethtoolSet iface "gro" (if g.groChecked then "off" else "on")]
  let groErrs : List ErrMsg := if o.gro then [] else [.failedSetOffload "GRO" iface]
  let ps : List SysAction × List ErrMsg :=
    if g.psEnabled then
      let prim : List SysAction := [.iwSetPowerSave iface (if g.psChecked then "off" else "on")]
      if o.iw then (prim, [])
      else if g.psChecked then
        if o.nm then (prim ++ [.writeNMConfig nmConfPath nmConfContent], [])
        else (prim ++ [.writeNMConfig nmConfPath nmConfContent],
              [.failedPowerSaveFallback iface])
      else (prim, [.failedSetPowerSave iface])
    else ([], [])
  let bv := toString (bufferValue g.slider)
  let buf : List SysAction × List ErrMsg :=
    if o.rmem then
      if o.wmem then
        ([.sysctlWrite "net.core.rmem_max" bv, .sysctlWrite "net.core.wmem_max" bv], [])
      else
        ([.sysctlWrite "net.core.rmem_max" bv, .sysctlWrite "net.core.wmem_max" bv],
         [.failedSetBuffers])
    else ([.sysctlWrite "net.core.rmem_max" bv], [.failedSetBuffers])
  let cc : List SysAction × List ErrMsg :=
    ([.sysctlWrite "net.ipv4.tcp_congestion_control" g.tcp],
     if o.cc then [] else [.failedSetCongestion])
  { actions := tsoActs ++ gsoActs ++ groActs ++ ps.1 ++ buf.1 ++ cc.1,
    errors := tsoErrs ++ gsoErrs ++ groErrs ++ ps.2 ++ buf.2 ++ cc.2 }

/-- `reset_to_defaults` (lines 502-556), after the no-interface guard: the
three offload restore writes (`"on"` when the stored flag is `True` or the
key is missing, `dict.get('tso', True)`); the power-save restore only when
the stored value is applicable, with no fallback; the two global buffer
writes sharing one try/except, interpolating `global_defaults.get(key)`
(so a missing key is rendered `"None"`); the congestion restore likewise. -/
def reset_to_defaults (iface : String) (cache : List (String × IfaceDefaults))
    (gd : GlobalDefaults) (o : WriteOutcomes) : ApplyResult :=
  let defaults := (cache.lookup iface).getD emptyDefaults
  let tsoV := if defaults.tso.getD true then "on" else "off"
  let tsoErrs : List ErrMsg := if o.tso then [] else [.failedResetOffload "TSO" iface]
  let gsoV := if defaults.gso.getD true then "on" else "off"
  let gsoErrs : List ErrMsg := if o.gso then [] else [.failedResetOffload "GSO" iface]
  let groV := if defaults.gro.getD true then "on" else "off"
  let groErrs : List ErrMsg := if o.gro then [] else [.failedResetOffload "GRO" iface]
  let ps : List SysAction × List ErrMsg :=
    match defaults.power_save.join with
    | some b =>
      ([.iwSetPowerSave iface (if b then "on" else "off")],
       if o.iw then [] else [.failedResetPowerSave iface])
    | none => ([], [])
  let buf : List SysAction × List ErrMsg :=
    if o.rmem then
      if o.wmem then
        ([.sysctlWrite "net.core.rmem_max" (optStr gd.rmem),
          .sysctlWrite "net.core.wmem_max" (optStr gd.wmem)], [])
      else
        ([.sysctlWrite "net.core.rmem_max" (optStr gd.rmem),
          .sysctlWrite "net.core.wmem_max" (optStr gd.wmem)],
         [.failedResetBuffers])
    else ([.sysctlWrite "net.core.rmem_max" (optStr gd.rmem)], [.failedResetBuffers])
  let cc : List SysAction × List ErrMsg :=
    ([.sysctlWrite "net.ipv4.tcp_congestion_control" (optStr gd.tcp_cc)],
     if o.cc then [] else [.failedResetCongestion])
  { actions := [SysAction.ethtoolSet iface "tso" tsoV, SysAction.ethtoolSet iface "gso" gsoV,
                SysAction.ethtoolSet iface "gro" groV] ++ ps.1 ++ buf.1 ++ cc.1,
    errors := tsoErrs ++ gsoErrs ++ groErrs ++ ps.2 ++ buf.2 ++ cc.2 }

/-- The desired state the presentation layer derives from a snapshot (the
checkbox updates of `load_interface_settings`, lines 338-348): each
"disable" toggle is the negation of the stored flag (missing key =
enabled), the power-save toggle the negation of the stored value when
applicable, else the control is inert. -/
def derivedDesired (d : IfaceDefaults) (slider : ℤ) (tcp : String) : GuiState :=
  { tsoChecked := !(d.tso.getD true),
    gsoChecked := !(d.gso.getD true),
    groChecked := !(d.gro.getD true),
    psEnabled := (d.power_save.join).isSome,
    psChecked := match d.power_save.join with | some b => !b | none => false,
    slider := slider, tcp := tcp }

/-- The per-interface capability reads (ethtool/iw), as opposed to the
global sysctl reads. -/
def perIfaceRead : ReadCall → Bool
  | .ethtoolK _ => true
  | .iwGet _ => true
  | .sysctlRead _ => false

/-- The offload / power-save capability writes of an action list: ethtool,
iw and the fallback config artifact (everything except sysctl). -/
def capWrites (acts : List SysAction) : List SysAction :=
  acts.filter fun a =>
    match a with
    | .ethtoolSet _ _ _ => true
    | .iwSetPowerSave _ _ => true
    | .writeNMConfig _ _ => true
    | .sysctlWrite _ _ => false

/-- Primary-mechanism offload / power-save writes only (ethtool and iw;
the fallback config artifact excluded). -/
def primWrites (acts : List SysAction) : List SysAction :=
  acts.filter fun a =>
    match a with
    | .ethtoolSet _ _ _ => true
    | .iwSetPowerSave _ _ => true
    | .writeNMConfig _ _ => false
    | .sysctlWrite _ _ => false

/-- The full ordered list of forward writes one apply run can issue for a
given desired state: every write it performs carries the desired value, so
an action list that is a sublist of this one contains no rollback and no
repeated write. -/
def desiredWrites (iface : String) (g : GuiState) : List SysAction :=
  [.ethtoolSet iface "tso" (if g.tsoChecked then "off" else "on"),
   .ethtoolSet iface "gso" (if g.gsoChecked then "off" else "on"),
   .ethtoolSet iface "gro" (if g.groChecked then "off" else "on"),
   .iwSetPowerSave iface (if g.psChecked then "off" else "on"),
   .writeNMConfig nmConfPath nmConfContent,
   .sysctlWrite "net.core.rmem_max" (toString (bufferValue g.slider)),
   .sysctlWrite "net.core.wmem_max" (toString (bufferValue g.slider)),
   .sysctlWrite "net.ipv4.tcp_congestion_control" g.tcp]

/-- A read-outcome bundle whose `ethtool -k` read fails (the other three
reads arbitrary): the scenario of the offload fail-safe path. -/
def readsWithOffloadFailure (iwr rm tc : Except Unit String) : ReadOutcomes :=
  { ethtool := .error (), iw := iwr, rmem := rm, tcp := tc }

/-! ## Helper lemmas -/

lemma mem_if_nil {α} (x y : α) (b : Bool) :
    (x ∈ if b then ([] : List α) else [y]) ↔ b = false ∧ x = y := by
  cases b <;> simp

lemma if_not_swap {α} (b : Bool) (x y : α) : (if !b then x else y) = if b then y else x := by
  cases b <;> rfl

lemma count_if_nil_of_ne {α} [BEq α] [LawfulBEq α] {x y : α} (h : y ≠ x) (b : Bool) :
    (if b then ([] : List α) else [y]).count x = 0 := by
  cases b <;> simp [List.count_eq_zero, h, Ne.symm h]

lemma if_eq_false_swap {α} (b : Bool) (x y : α) :
    (if b = false then x else y) = if b = true then y else x := by
  cases b <;> rfl

/-! ## The claims -/

/-- C9: the derived byte value written to both buffer kernel parameters
equals `floor(tier * 0.5 * 1048576)`; tier 4 yields 2097152 and tier 8
yields 4194304; tier inputs outside `[1, 8]` are clamped into `[1, 8]`
(by the slider widget) before the computation; the value is written to
the receive-buffer parameter and, when that write succeeds, to the
send-buffer parameter. -/
theorem C9_buffer_tier_bytes (v : ℤ) (iface : String) (g : GuiState) (o : WriteOutcomes) :
    1 ≤ sliderSet v ∧ sliderSet v ≤ 8
  ∧ (v < 1 → sliderSet v = 1) ∧ (8 < v → sliderSet v = 8)
  ∧ (1 ≤ v → v ≤ 8 → sliderSet v = v)
  ∧ bufferValue v = ⌊(v : ℚ) * 0.5 * 1048576⌋
  ∧ bufferValue 4 = 2097152 ∧ bufferValue 8 = 4194304
  ∧ SysAction.sysctlWrite "net.core.rmem_max" (toString (bufferValue g.slider))
      ∈ (apply_settings iface g o).actions
  ∧ (o.rmem = true →
      SysAction.sysctlWrite "net.core.wmem_max" (toString (bufferValue g.slider))
        ∈ (apply_settings iface g o).actions) := by
  obtain ⟨gt, gg, gr, pe, pc, sl, tc⟩ := g
  obtain ⟨t, gs2, gr2, iw, nm, rm, wm, cc⟩ := o
  refine ⟨?_, ?_, ?_, ?_, ?_, ?_, by decide, by decide, ?_, ?_⟩
  · simp only [sliderSet]; omega
  · simp only [sliderSet]; omega
  · simp only [sliderSet]; omega
  · simp only [sliderSet]; omega
  · simp only [sliderSet]; omega
  · show (v * 524288 : ℤ) = _
    have h : ((v : ℚ) * 0.5 * 1048576) = ((v * 524288 : ℤ) : ℚ) := by push_cast; ring
    rw [h, Int.floor_intCast]
  · simp only [apply_settings]
    generalize toString (bufferValue sl) = bvs
    cases pe <;> cases pc <;> cases iw <;> cases nm <;> cases rm <;> cases wm <;> simp
  · simp only [apply_settings]
    generalize toString (bufferValue sl) = bvs
    intro h
    cases rm
    · exact absurd h (by simp)
    · cases pe <;> cases pc <;> cases iw <;> cases nm <;> cases wm <;> simp

/-- C3 (code bug): when the global snapshot was not captured (the startup
reads failed, leaving `global_defaults` empty), `reset_to_defaults` does
not skip the three global fields: `global_defaults.get(key)` yields
Python `None`, which the f-string renders as the literal text `"None"`,
so the code issues `sysctl -w <key>=None` garbage writes for all three
fields instead of the claimed "unknown, not reset" skip.  The last
conjunct checks the capture side: a failed startup read leaves every
global field unset and surfaces a warning. -/
theorem C3_reset_writes_none_for_uncaptured :
    let gdEmpty : GlobalDefaults := { rmem := none, wmem := none, tcp_cc := none }
    let ok : WriteOutcomes :=
      { tso := true, gso := true, gro := true, iw := true, nm := true,
        rmem := true, wmem := true, cc := true }
    let r := reset_to_defaults "eth0" [] gdEmpty ok
    SysAction.sysctlWrite "net.core.rmem_max" "None" ∈ r.actions
  ∧ SysAction.sysctlWrite "net.core.wmem_max" "None" ∈ r.actions
  ∧ SysAction.sysctlWrite "net.ipv4.tcp_congestion_control" "None" ∈ r.actions
  ∧ load_global_defaults gdEmpty
      { rmem := .error (), wmem := .error (), tcp := .error () }
      = (gdEmpty, [Warning.globalWarn]) := by
  decide

/-- C5 counterexample: with a failing receive-buffer write (and every
other write succeeding), the send-buffer write is never attempted — the
full action list contains no `net.core.wmem_max` write — and the result
carries the single combined buffer failure entry rather than separate
per-write reports.  This refutes "a failure of the receive-buffer write
does not prevent the send-buffer write from being attempted". -/
theorem C5_buffer_not_attempted_cex :
    let g : GuiState :=
      { tsoChecked := false, gsoChecked := false, groChecked := false,
        psEnabled := false, psChecked := false, slider := 4, tcp := "cubic" }
    let o : WriteOutcomes :=
      { tso := true, gso := true, gro := true, iw := true, nm := true,
        rmem := false, wmem := true, cc := true }
    let r := apply_settings "eth0" g o
    SysAction.sysctlWrite "net.core.wmem_max" "2097152" ∉ r.actions
  ∧ r.actions =
      [SysAction.ethtoolSet "eth0" "tso" "on", SysAction.ethtoolSet "eth0" "gso" "on",
       SysAction.ethtoolSet "eth0" "gro" "on",
       SysAction.sysctlWrite "net.core.rmem_max" "2097152",
       SysAction.sysctlWrite "net.ipv4.tcp_congestion_control" "cubic"]
  ∧ r.errors = [ErrMsg.failedSetBuffers] := by
  decide

/-- C5 amended: the two buffer writes execute in one guarded block: the
receive-buffer write is always attempted, the send-buffer write is
attempted if and only if the receive-buffer write succeeded, a failure
of either write is reported as a single combined buffer failure entry
(never two separate per-write reports), and the buffer step's outcome
still never blocks the following congestion-control step. -/
theorem C5_buffer_step_coupled (iface : String) (g : GuiState) (o : WriteOutcomes) :
    (SysAction.sysctlWrite "net.core.rmem_max" (toString (bufferValue g.slider))
        ∈ (apply_settings iface g o).actions)
  ∧ ((SysAction.sysctlWrite "net.core.wmem_max" (toString (bufferValue g.slider))
        ∈ (apply_settings iface g o).actions) ↔ o.rmem = true)
  ∧ ((ErrMsg.failedSetBuffers ∈ (apply_settings iface g o).errors)
        ↔ (o.rmem = false ∨ o.wmem = false))
  ∧ (apply_settings iface g o).errors.count ErrMsg.failedSetBuffers ≤ 1
  ∧ (SysAction.sysctlWrite "net.ipv4.tcp_congestion_control" g.tcp
        ∈ (apply_settings iface g o).actions) := by
  obtain ⟨gt, gg, gr, pe, pc, sl, tc⟩ := g
  obtain ⟨t, gs2, gr2, iw, nm, rm, wm, cc⟩ := o
  simp only [apply_settings]
  generalize toString (bufferValue sl) = bvs
  refine ⟨?_, ?_, ?_, ?_, ?_⟩
  · cases pe <;> cases pc <;> cases iw <;> cases nm <;> cases rm <;> cases wm <;> simp
  · cases pe <;> cases pc <;> cases iw <;> cases nm <;> cases rm <;> cases wm <;> simp
  · cases pe <;> cases pc <;> cases iw <;> cases nm <;> cases rm <;> cases wm <;>
      simp [mem_if_nil]
  · cases pe <;> cases pc <;> cases iw <;> cases nm <;> cases rm <;> cases wm <;>
      simp [List.count_append, List.count_cons, count_if_nil_of_ne]
  · cases pe <;> cases pc <;> cases iw <;> cases nm <;> cases rm <;> cases wm <;> simp

set_option maxHeartbeats 3200000 in
/-- C1: apply executes its four field groups as an ordered sequence of
independent steps.  For every desired state and failure pattern: each
offload write, the power-save write (when applicable), the
receive-buffer write and the congestion write are attempted regardless
of every other outcome; each step's failure is recorded as that field's
entry of the aggregated error list (if and only if the step failed); and
the issued actions always form a sublist of the fixed forward desired
write sequence — so no successful write is ever followed by a rollback
write and no step is issued twice. -/
theorem C1_apply_independent_steps (iface : String) (g : GuiState) (o : WriteOutcomes) :
    (SysAction.ethtoolSet iface "tso" (if g.tsoChecked then "off" else "on")
        ∈ (apply_settings iface g o).actions)
  ∧ (SysAction.ethtoolSet iface "gso" (if g.gsoChecked then "off" else "on")
        ∈ (apply_settings iface g o).actions)
  ∧ (SysAction.ethtoolSet iface "gro" (if g.groChecked then "off" else "on")
        ∈ (apply_settings iface g o).actions)
  ∧ (g.psEnabled = true →
      SysAction.iwSetPowerSave iface (if g.psChecked then "off" else "on")
        ∈ (apply_settings iface g o).actions)
  ∧ (SysAction.sysctlWrite "net.core.rmem_max" (toString (bufferValue g.slider))
        ∈ (apply_settings iface g o).actions)
  ∧ (SysAction.sysctlWrite "net.ipv4.tcp_congestion_control" g.tcp
        ∈ (apply_settings iface g o).actions)
  ∧ ((ErrMsg.failedSetOffload "TSO" iface ∈ (apply_settings iface g o).errors) ↔ o.tso = false)
  ∧ ((ErrMsg.failedSetOffload "GSO" iface ∈ (apply_settings iface g o).errors) ↔ o.gso = false)
  ∧ ((ErrMsg.failedSetOffload "GRO" iface ∈ (apply_settings iface g o).errors) ↔ o.gro = false)
  ∧ ((ErrMsg.failedSetPowerSave iface ∈ (apply_settings iface g o).errors
        ∨ ErrMsg.failedPowerSaveFallback iface ∈ (apply_settings iface g o).errors)
      ↔ (g.psEnabled = true ∧ o.iw = false ∧ ¬(g.psChecked = true ∧ o.nm = true)))
  ∧ ((ErrMsg.failedSetBuffers ∈ (apply_settings iface g o).errors)
      ↔ (o.rmem = false ∨ o.wmem = false))
  ∧ ((ErrMsg.failedSetCongestion ∈ (apply_settings iface g o).errors) ↔ o.cc = false)
  ∧ (apply_settings iface g o).actions.Sublist (desiredWrites iface g) := by
  obtain ⟨gt, gg, gr, pe, pc, sl, tc⟩ := g
  obtain ⟨t, gs2, gr2, iw, nm, rm, wm, cc⟩ := o
  simp only [apply_settings, desiredWrites]
  generalize toString (bufferValue sl) = bvs
  refine ⟨?_, ?_, ?_, ?_, ?_, ?_, ?_, ?_, ?_, ?_, ?_, ?_, ?_⟩
  · cases pe <;> cases pc <;> cases iw <;> cases nm <;> cases rm <;> cases wm <;> simp
  · cases pe <;> cases pc <;> cases iw <;> cases nm <;> cases rm <;> cases wm <;> simp
  · cases pe <;> cases pc <;> cases iw <;> cases nm <;> cases rm <;> cases wm <;> simp
  · cases pe <;> cases pc <;> cases iw <;> cases nm <;> cases rm <;> cases wm <;> simp
  · cases pe <;> cases pc <;> cases iw <;> cases nm <;> cases rm <;> cases wm <;> simp
  · cases pe <;> cases pc <;> cases iw <;> cases nm <;> cases rm <;> cases wm <;> simp
  · cases pe <;> cases pc <;> cases iw <;> cases nm <;> cases rm <;> cases wm <;>
      simp [mem_if_nil]
  · cases pe <;> cases pc <;> cases iw <;> cases nm <;> cases rm <;> cases wm <;>
      simp [mem_if_nil]
  · cases pe <;> cases pc <;> cases iw <;> cases nm <;> cases rm <;> cases wm <;>
      simp [mem_if_nil]
  · cases pe <;> cases pc <;> cases iw <;> cases nm <;> cases rm <;> cases wm <;>
      simp [mem_if_nil]
  · cases pe <;> cases pc <;> cases iw <;> cases nm <;> cases rm <;> cases wm <;>
      simp [mem_if_nil]
  · cases pe <;> cases pc <;> cases iw <;> cases nm <;> cases rm <;> cases wm <;>
      simp [mem_if_nil]
  · cases pe <;> cases pc <;> cases iw <;> cases nm <;> cases rm <;> cases wm <;>
      simp only [List.append_assoc, List.cons_append, List.nil_append, List.append_nil] <;>
      (repeat first
        | exact List.Sublist.refl _
        | exact List.nil_sublist _
        | apply List.Sublist.cons₂
        | apply List.Sublist.cons)

/-- C7: the power-save config-file fallback is attempted iff the primary
power-save write fails while the desired value is "disable power save"
(never when re-enabling); under an applicable power-save control, the
power-save field carries no failure entry iff the primary write
succeeded or the fallback was taken and succeeded; the fallback failure
is recorded with a reason distinct from the primary-only failure. -/
theorem C7_power_save_fallback (iface : String) (g : GuiState) (o : WriteOutcomes) :
    ((SysAction.writeNMConfig nmConfPath nmConfContent ∈ (apply_settings iface g o).actions)
        ↔ (g.psEnabled = true ∧ g.psChecked = true ∧ o.iw = false))
  ∧ (g.psEnabled = true →
      ((ErrMsg.failedSetPowerSave iface ∉ (apply_settings iface g o).errors
          ∧ ErrMsg.failedPowerSaveFallback iface ∉ (apply_settings iface g o).errors)
        ↔ (o.iw = true ∨ (g.psChecked = true ∧ o.nm = true))))
  ∧ ((ErrMsg.failedPowerSaveFallback iface ∈ (apply_settings iface g o).errors)
        ↔ (g.psEnabled = true ∧ g.psChecked = true ∧ o.iw = false ∧ o.nm = false))
  ∧ ((ErrMsg.failedSetPowerSave iface ∈ (apply_settings iface g o).errors)
        ↔ (g.psEnabled = true ∧ g.psChecked = false ∧ o.iw = false))
  ∧ (∀ i2 : String, ErrMsg.failedPowerSaveFallback i2 ≠ ErrMsg.failedSetPowerSave i2) := by
  obtain ⟨gt, gg, gr, pe, pc, sl, tc⟩ := g
  obtain ⟨t, gs2, gr2, iw, nm, rm, wm, cc⟩ := o
  simp only [apply_settings]
  generalize toString (bufferValue sl) = bvs
  refine ⟨?_, ?_, ?_, ?_, by simp⟩
  · cases pe <;> cases pc <;> cases iw <;> cases nm <;> cases rm <;> cases wm <;> simp
  · cases pe <;> cases pc <;> cases iw <;> cases nm <;> cases rm <;> cases wm <;>
      simp [mem_if_nil]
  · cases pe <;> cases pc <;> cases iw <;> cases nm <;> cases rm <;> cases wm <;>
      simp [mem_if_nil]
  · cases pe <;> cases pc <;> cases iw <;> cases nm <;> cases rm <;> cases wm <;>
      simp [mem_if_nil]

/-- C10: on the reset path every offload flag that was never detected —
its key absent from the snapshot dict, including the case where the
whole snapshot entry is missing — is restored to `"on"` (the fail-safe
`dict.get(flag, True)` default); reset always issues a write for each of
the three flags, and an undetected flag's write is reported failed only
when the write itself fails. -/
theorem C10_reset_missing_offload_on (iface : String) (cache : List (String × IfaceDefaults))
    (gd : GlobalDefaults) (o : WriteOutcomes) :
    (((cache.lookup iface).getD emptyDefaults).tso = none →
        SysAction.ethtoolSet iface "tso" "on" ∈ (reset_to_defaults iface cache gd o).actions)
  ∧ (((cache.lookup iface).getD emptyDefaults).gso = none →
        SysAction.ethtoolSet iface "gso" "on" ∈ (reset_to_defaults iface cache gd o).actions)
  ∧ (((cache.lookup iface).getD emptyDefaults).gro = none →
        SysAction.ethtoolSet iface "gro" "on" ∈ (reset_to_defaults iface cache gd o).actions)
  ∧ (cache.lookup iface = none →
        SysAction.ethtoolSet iface "tso" "on" ∈ (reset_to_defaults iface cache gd o).actions
      ∧ SysAction.ethtoolSet iface "gso" "on" ∈ (reset_to_defaults iface cache gd o).actions
      ∧ SysAction.ethtoolSet iface "gro" "on" ∈ (reset_to_defaults iface cache gd o).actions)
  ∧ (∃ v, SysAction.ethtoolSet iface "tso" v ∈ (reset_to_defaults iface cache gd o).actions)
  ∧ (∃ v, SysAction.ethtoolSet iface "gso" v ∈ (reset_to_defaults iface cache gd o).actions)
  ∧ (∃ v, SysAction.ethtoolSet iface "gro" v ∈ (reset_to_defaults iface cache gd o).actions)
  ∧ (((cache.lookup iface).getD emptyDefaults).tso = none →
        ((ErrMsg.failedResetOffload "TSO" iface ∈ (reset_to_defaults iface cache gd o).errors)
          ↔ o.tso = false)) := by
  refine ⟨?_, ?_, ?_, ?_, ?_, ?_, ?_, ?_⟩
  · intro h; simp [reset_to_defaults, h]
  · intro h; simp [reset_to_defaults, h]
  · intro h; simp [reset_to_defaults, h]
  · intro h; simp [reset_to_defaults, h, emptyDefaults]
  · exact ⟨if ((cache.lookup iface).getD emptyDefaults).tso.getD true then "on" else "off",
      by simp [reset_to_defaults]⟩
  · exact ⟨if ((cache.lookup iface).getD emptyDefaults).gso.getD true then "on" else "off",
      by simp [reset_to_defaults]⟩
  · exact ⟨if ((cache.lookup iface).getD emptyDefaults).gro.getD true then "on" else "off",
      by simp [reset_to_defaults]⟩
  · intro h
    obtain ⟨t, gs2, gr2, iw, nm, rm, wm, cc⟩ := o
    simp only [reset_to_defaults]
    generalize hD : (cache.lookup iface).getD emptyDefaults = D
    rw [hD] at h
    obtain ⟨dt, dg, dr, dp⟩ := D
    simp only [IfaceDefaults.tso] at h
    subst h
    rcases dp with _ | op
    · cases t <;> cases rm <;> cases wm <;> simp [mem_if_nil]
    · rcases op with _ | b
      · cases t <;> cases rm <;> cases wm <;> simp [mem_if_nil]
      · cases t <;> cases rm <;> cases wm <;> simp [mem_if_nil]

/-- C2 counterexample: a snapshot with power-save captured as disabled
(`power_save = False`), with the primary `iw` restore write failing.
Apply, for the desired state derived from that snapshot, falls back to
the NetworkManager config-file write; reset never does, so the
offload/power-save capability write sequences of the two operations
differ — refuting "reset issues exactly the same capability writes ...
including the identical power-save fallback rule". -/
theorem C2_reset_missing_fallback_cex :
    let d : IfaceDefaults :=
      { tso := some true, gso := some true, gro := some true, power_save := some (some false) }
    let o : WriteOutcomes :=
      { tso := true, gso := true, gro := true, iw := false, nm := true,
        rmem := true, wmem := true, cc := true }
    let gd : GlobalDefaults :=
      { rmem := some "212992", wmem := some "212992", tcp_cc := some "cubic" }
    let g := derivedDesired d 4 "cubic"
    (SysAction.writeNMConfig nmConfPath nmConfContent ∈ (apply_settings "wlan0" g o).actions)
  ∧ (SysAction.writeNMConfig nmConfPath nmConfContent
        ∉ (reset_to_defaults "wlan0" [("wlan0", d)] gd o).actions)
  ∧ capWrites (reset_to_defaults "wlan0" [("wlan0", d)] gd o).actions
      ≠ capWrites (apply_settings "wlan0" g o).actions := by
  decide

/-- C2 amended: for every snapshot, reset issues exactly the same
primary-mechanism capability writes (the three offload writes, with
`on`/`off` re-derived from the stored booleans, and the power-save write
only when applicable) that apply would issue for the desired state
derived from that snapshot — but reset does not implement the power-save
config-artifact fallback: no fallback write is ever issued on the reset
path, in any direction, under any failure pattern. -/
theorem C2_reset_primary_writes_agree (iface : String) (cache : List (String × IfaceDefaults))
    (gd : GlobalDefaults) (o : WriteOutcomes) (slider : ℤ) (tcp : String) :
    primWrites (reset_to_defaults iface cache gd o).actions
      = primWrites (apply_settings iface
          (derivedDesired ((cache.lookup iface).getD emptyDefaults) slider tcp) o).actions
  ∧ (∀ p c, SysAction.writeNMConfig p c ∉ (reset_to_defaults iface cache gd o).actions) := by
  obtain ⟨t, gs2, gr2, iw, nm, rm, wm, cc⟩ := o
  constructor
  · simp only [reset_to_defaults, apply_settings, derivedDesired]
    generalize hD : (cache.lookup iface).getD emptyDefaults = D
    obtain ⟨dt, dg, dr, dp⟩ := D
    rcases dp with _ | op
    · cases iw <;> cases rm <;> cases wm <;>
        simp [primWrites, if_not_swap, if_eq_false_swap]
    · rcases op with _ | b
      · cases iw <;> cases rm <;> cases wm <;>
          simp [primWrites, if_not_swap, if_eq_false_swap]
      · cases b <;> cases iw <;> cases nm <;> cases rm <;> cases wm <;>
          simp [primWrites, if_not_swap, if_eq_false_swap]
  · intro p c
    simp only [reset_to_defaults]
    generalize hD : (cache.lookup iface).getD emptyDefaults = D
    obtain ⟨dt, dg, dr, dp⟩ := D
    rcases dp with _ | op
    · cases rm <;> cases wm <;> simp
    · rcases op with _ | b
      · cases rm <;> cases wm <;> simp
      · cases b <;> cases iw <;> cases rm <;> cases wm <;> simp


lemma load_lookup_self (st : AppState) (iface : String) (o : ReadOutcomes) :
    (load_interface_settings st iface o).state.interface_defaults.lookup iface
      = some (load_interface_settings st iface o).snapshot := by
  cases h : st.interface_defaults.lookup iface <;>
    simp [load_interface_settings, h, List.lookup]

lemma load_preserves_lookup (st : AppState) (iface2 : String) (o : ReadOutcomes)
    (iface : String) (d : IfaceDefaults)
    (h : st.interface_defaults.lookup iface = some d) :
    (load_interface_settings st iface2 o).state.interface_defaults.lookup iface = some d := by
  cases h2 : st.interface_defaults.lookup iface2
  · by_cases hEq : iface = iface2
    · subst hEq; rw [h] at h2; cases h2
    · have hb : (iface == iface2) = false := beq_eq_false_iff_ne.mpr hEq
      simp [load_interface_settings, h2, List.lookup, hb, h]
  · simp [load_interface_settings, h2, h]

lemma load_cached (st : AppState) (iface : String) (o : ReadOutcomes) (d : IfaceDefaults)
    (h : st.interface_defaults.lookup iface = some d) :
    (load_interface_settings st iface o).state.interface_defaults = st.interface_defaults
  ∧ (load_interface_settings st iface o).snapshot = d
  ∧ (load_interface_settings st iface o).issued
      = [ReadCall.sysctlRead "net.core.rmem_max",
         ReadCall.sysctlRead "net.ipv4.tcp_congestion_control"] := by
  exact ⟨by simp [load_interface_settings, h], by simp [load_interface_settings, h],
    by simp [load_interface_settings, h]⟩

/-- C6: the snapshot for an interface is captured at most once.  A first
selection of an uncached interface issues the `ethtool -k` and
`iw get power_save` reads and stores the captured snapshot; a selection
of a cached interface leaves the snapshot table untouched, returns the
stored snapshot, and issues only the two global sysctl reads (no
per-interface capability read); and after selecting the interface,
switching to any other interface and selecting it again returns the
identical snapshot while issuing only the two global sysctl reads. -/
theorem C6_snapshot_captured_once (st : AppState) (iface iface2 : String)
    (o oB oC : ReadOutcomes) :
    (st.interface_defaults.lookup iface = none →
        ReadCall.ethtoolK iface ∈ (load_interface_settings st iface o).issued
      ∧ ReadCall.iwGet iface ∈ (load_interface_settings st iface o).issued
      ∧ (load_interface_settings st iface o).state.interface_defaults.lookup iface
          = some (captureIface iface o).1)
  ∧ (∀ d, st.interface_defaults.lookup iface = some d →
        (load_interface_settings st iface o).state.interface_defaults = st.interface_defaults
      ∧ (load_interface_settings st iface o).snapshot = d
      ∧ (load_interface_settings st iface o).issued
          = [ReadCall.sysctlRead "net.core.rmem_max",
             ReadCall.sysctlRead "net.ipv4.tcp_congestion_control"])
  ∧ (load_interface_settings
        (load_interface_settings (load_interface_settings st iface o).state iface2 oB).state
        iface oC).snapshot
      = (load_interface_settings st iface o).snapshot
  ∧ (load_interface_settings
        (load_interface_settings (load_interface_settings st iface o).state iface2 oB).state
        iface oC).state.interface_defaults
      = (load_interface_settings (load_interface_settings st iface o).state iface2 oB).state.interface_defaults
  ∧ (load_interface_settings
        (load_interface_settings (load_interface_settings st iface o).state iface2 oB).state
        iface oC).issued
      = [ReadCall.sysctlRead "net.core.rmem_max",
         ReadCall.sysctlRead "net.ipv4.tcp_congestion_control"] := by
  have hr := load_lookup_self st iface o
  have hB := load_preserves_lookup (load_interface_settings st iface o).state iface2 oB iface
    (load_interface_settings st iface o).snapshot hr
  have hC := load_cached
    (load_interface_settings (load_interface_settings st iface o).state iface2 oB).state
    iface oC (load_interface_settings st iface o).snapshot hB
  refine ⟨?_, fun d h => load_cached st iface o d h, hC.2.1, hC.1, hC.2.2⟩
  intro h
  refine ⟨?_, ?_, ?_⟩
  · simp [load_interface_settings, h]
  · simp [load_interface_settings, h]
  · simp [load_interface_settings, h, List.lookup]

/-- C8: when the `ethtool -k` read fails during snapshot capture, the
captured snapshot records `true` for all three offload flags (never a
missing/none value) and the non-fatal offload warning is surfaced; when
the interface was uncached, the selection stores exactly that fail-safe
snapshot, returns it, and surfaces the warning — the capture is a total
function and never aborts. -/
theorem C8_offload_read_failure_failsafe (st : AppState) (iface : String)
    (iwr rm tc : Except Unit String) :
    ((captureIface iface (readsWithOffloadFailure iwr rm tc)).1.tso = some true
   ∧ (captureIface iface (readsWithOffloadFailure iwr rm tc)).1.gso = some true
   ∧ (captureIface iface (readsWithOffloadFailure iwr rm tc)).1.gro = some true
   ∧ Warning.offloadWarn iface ∈ (captureIface iface (readsWithOffloadFailure iwr rm tc)).2)
  ∧ (st.interface_defaults.lookup iface = none →
      (load_interface_settings st iface (readsWithOffloadFailure iwr rm tc)).state.interface_defaults.lookup iface
        = some (captureIface iface (readsWithOffloadFailure iwr rm tc)).1
    ∧ (load_interface_settings st iface (readsWithOffloadFailure iwr rm tc)).snapshot
        = (captureIface iface (readsWithOffloadFailure iwr rm tc)).1
    ∧ Warning.offloadWarn iface
        ∈ (load_interface_settings st iface (readsWithOffloadFailure iwr rm tc)).warns) := by
  constructor
  · cases iwr <;> simp [captureIface, readsWithOffloadFailure]
  · intro h
    refine ⟨?_, ?_, ?_⟩
    · simp [load_interface_settings, h, List.lookup]
    · simp [load_interface_settings, h]
    · cases iwr <;>
        simp [load_interface_settings, h, captureIface, readsWithOffloadFailure]

/-- C4 counterexample: with both interfaces already cached (so no capture
is involved), the user has buffer tier 8 and congestion algorithm "bbr"
selected; switching to the other interface re-reads the global sysctl
values (1048576 bytes, "cubic") and overwrites both interface-independent
desired-state fields: the tier becomes 2 and the algorithm "cubic" —
refuting "the interface-switch operation never mutates them". -/
theorem C4_switch_mutates_cex :
    let snap : IfaceDefaults :=
      { tso := some true, gso := some true, gro := some true, power_save := some none }
    let st : AppState :=
      { interface_defaults := [("eth0", snap), ("eth1", snap)],
        global_defaults :=
          { rmem := some "212992", wmem := some "212992", tcp_cc := some "cubic" },
        current_interface := some "eth0",
        gui := { tsoChecked := false, gsoChecked := false, groChecked := false,
                 psEnabled := false, psChecked := false, slider := 8, tcp := "bbr" } }
    let o : ReadOutcomes :=
      { ethtool := .error (), iw := .error (), rmem := .ok "1048576", tcp := .ok "cubic" }
    (on_interface_change st "eth1" o).state.gui.slider = 2 ∧ st.gui.slider = 8
  ∧ (on_interface_change st "eth1" o).state.gui.tcp = "cubic" ∧ st.gui.tcp = "bbr" := by
  decide

/-- C4 amended: switching interfaces re-reads the two global kernel
parameters and overwrites the interface-independent desired-state
fields from them: the buffer tier is recomputed (clamped half-even
rounding of current receive-buffer bytes / 0.5 MiB) whenever the read
value parses as an integer, and the congestion selection is overwritten
whenever the read value is one of the offered algorithms; each field is
left unchanged only when its read fails, fails to parse, or (for
congestion) names an algorithm the combo box does not offer. -/
theorem C4_switch_overwrites_global_fields (st : AppState) (iface : String) (o : ReadOutcomes) :
    (∀ e, o.rmem = .error e →
        (on_interface_change st iface o).state.gui.slider = st.gui.slider
      ∧ Warning.bufferWarn ∈ (on_interface_change st iface o).warns)
  ∧ (∀ s, o.rmem = .ok s → pyInt? (pyStrip s) = none →
        (on_interface_change st iface o).state.gui.slider = st.gui.slider
      ∧ Warning.bufferWarn ∈ (on_interface_change st iface o).warns)
  ∧ (∀ s n, o.rmem = .ok s → pyInt? (pyStrip s) = some n →
        (on_interface_change st iface o).state.gui.slider = sliderSet (pyRoundDiv n 524288))
  ∧ (∀ e, o.tcp = .error e →
        (on_interface_change st iface o).state.gui.tcp = st.gui.tcp)
  ∧ (∀ s, o.tcp = .ok s → (pyStrip s == "cubic" || pyStrip s == "bbr") = true →
        (on_interface_change st iface o).state.gui.tcp = pyStrip s)
  ∧ (∀ s, o.tcp = .ok s → (pyStrip s == "cubic" || pyStrip s == "bbr") = false →
        (on_interface_change st iface o).state.gui.tcp = st.gui.tcp) := by
  refine ⟨?_, ?_, ?_, ?_, ?_, ?_⟩
  · intro e he
    cases hL : st.interface_defaults.lookup iface <;>
      simp [on_interface_change, load_interface_settings, hL, he]
  · intro s hs hp
    cases hL : st.interface_defaults.lookup iface <;>
      simp [on_interface_change, load_interface_settings, hL, hs, hp]
  · intro s n hs hp
    cases hL : st.interface_defaults.lookup iface <;>
      simp [on_interface_change, load_interface_settings, hL, hs, hp]
  · intro e he
    cases hL : st.interface_defaults.lookup iface <;>
      simp [on_interface_change, load_interface_settings, hL, he]
  · intro s hs hm
    cases hL : st.interface_defaults.lookup iface <;>
      simp [on_interface_change, load_interface_settings, hL, hs, hm]
  · intro s hs hm
    cases hL : st.interface_defaults.lookup iface <;>
      simp [on_interface_change, load_interface_settings, hL, hs, hm]
